import Mathlib

/-!
Shallow embedding of the ROI pipeline of `nih_efficient_frontier.py`
(taxonomy maps, burden normalization, funding reshape, lag/window ROI sweep,
groupby statistics), together with theorems settling the specification claims.

Numeric modelling: pandas float values are modelled by `Rat`; a NaN produced by
`pd.to_numeric(..., errors="coerce")` or by a missing join partner is modelled
by `none : Option Rat`.  Division by zero produces an IEEE infinity (or NaN) in
the code; the model stores the junk value `x / 0 = 0` of `Rat` there, so every
statement about a concrete quotient carries an explicit nonzero hypothesis on
the divisor.  Membership of rows in the derived relations is unaffected by this
choice and is modelled exactly.
-/

namespace NIH

/-- Row of the mortality (CDC WONDER) table after the numeric coercion of
`Population` (source line 56): `population = none` models a value that failed
coercion (NaN).  `Deaths` is used uncoerced by the source, so it is a plain
rational here. -/
structure MortRow where
  chapter : String
  year : Int
  deaths : Rat
  population : Option Rat
deriving DecidableEq

/-- Row of `funding_long` (source lines 66–69): the melted wide funding table,
with `funding = none` modelling a value that failed the numeric coercion of
line 69 (dropped by the `dropna` of line 70). -/
structure FundRow where
  institute : String
  year : Int
  funding : Option Rat
deriving DecidableEq

/-- Dictionary `icd_to_nih` of source lines 17–36: ICD chapter to NIH
institute. -/
def icd_to_nih (icd : String) : Option String :=
  if icd = "Neoplasms" then some "NCI"
  else if icd = "Diseases of the circulatory system" then some "NHLBI"
  else if icd = "Diseases of the respiratory system" then some "NHLBI"
  else if icd = "Endocrine, nutritional and metabolic diseases" then some "NIDDK"
  else if icd = "Diseases of the nervous system" then some "NINDS"
  else if icd = "Mental and behavioural disorders" then some "NIMH"
  else if icd = "Diseases of the genitourinary system" then some "NIDDK"
  else if icd = "Diseases of the digestive system" then some "NIDDK"
  else if icd = "Diseases of the musculoskeletal system and connective tissue" then some "NIAMS"
  else if icd = "Diseases of the skin and subcutaneous tissue" then some "NIAMS"
  else if icd = "Certain infectious and parasitic diseases" then some "NIAID"
  else if icd = "Diseases of the blood and blood-forming organs" then some "NHLBI"
  else if icd = "Diseases of the eye and adnexa" then some "NEI"
  else if icd = "Diseases of the ear and mastoid process" then some "NIDCD"
  else if icd = "Congenital malformations, deformations and chromosomal abnormalities" then some "NICHD"
  else if icd = "Certain conditions originating in the perinatal period" then some "NICHD"
  else if icd = "Pregnancy, childbirth and the puerperium" then some "NICHD"
  else if icd = "Symptoms, signs and abnormal clinical and laboratory findings, not elsewhere classified" then some "NINDS"
  else none

/-- Dictionary `nih_to_bisias_group` of source lines 39–50: NIH institute to
Bisias disease group. -/
def nih_to_bisias_group (nih : String) : Option String :=
  if nih = "NCI" then some "ONC"
  else if nih = "NHLBI" then some "HLB"
  else if nih = "NIDDK" then some "DDK"
  else if nih = "NINDS" then some "CNS"
  else if nih = "NIMH" then some "NMH"
  else if nih = "NIAMS" then some "CNS"
  else if nih = "NIAID" then some "AID"
  else if nih = "NEI" then some "CNS"
  else if nih = "NIDCD" then some "CNS"
  else if nih = "NICHD" then some "CHD"
  else none

/-- Composed map `icd_to_bisias` of source line 53: the dict comprehension
stores `nih_to_bisias_group.get(nih)`, so a chapter whose institute is missing
from the second dictionary would map to `None`, and `Series.map` later treats
both a missing key and a `None` value as NaN — exactly `Option.bind`. -/
def icd_to_bisias (icd : String) : Option String :=
  (icd_to_nih icd).bind nih_to_bisias_group

/-- Numeric `Population` values of the rows of a chapter with `Year == 2005`
(the series grouped on source line 57); the `filterMap` drops coerced NaNs,
matching pandas' skip-NaN `mean`. -/
def refVals (mr : List MortRow) (ch : String) : List Rat :=
  (mr.filter (fun r => decide (r.chapter = ch ∧ r.year = 2005))).filterMap
    (fun r => r.population)

/-- Per-chapter reference population `pop_2005` (source line 57): the mean of
the numeric 2005 populations of the chapter; `none` models a chapter absent
from the dict (no 2005 row, or no numeric 2005 population — the group `mean`
is NaN and is removed by `dropna`). -/
def pop2005 (mr : List MortRow) (ch : String) : Option Rat :=
  if refVals mr ch = [] then none
  else some ((refVals mr ch).sum / ((refVals mr ch).length : Rat))

/-- Burden-series contribution of one mortality row (source lines 58–62):
`Norm_Burden = Deaths / Population_2005`, then `dropna` on `Norm_Burden` and on
the mapped `Group`.  The quotient is NaN (hence dropped) when the reference
population is absent or when it is zero with zero deaths; when it is zero with
nonzero deaths the code keeps the row with an IEEE infinity and the model keeps
it with the junk value `deaths / 0`. -/
def normOf (mr : List MortRow) (r : MortRow) : Option (String × Rat) :=
  match pop2005 mr r.chapter with
  | none => none
  | some p =>
    if p = 0 ∧ r.deaths = 0 then none
    else
      match icd_to_bisias r.chapter with
      | none => none
      | some g => some (g, r.deaths / p)

/-- Rows surviving lines 56–62, as (group, year, normalized burden) triples. -/
def normRows (mr : List MortRow) : List (String × Int × Rat) :=
  mr.filterMap (fun r => (normOf mr r).map (fun gb => (gb.1, r.year, gb.2)))

/-- Normalized burdens of the surviving rows falling in a (group, year) key
(the members of one group of the groupby on source line 63). -/
def burdenVals (mr : List MortRow) (g : String) (y : Int) : List Rat :=
  (normRows mr).filterMap
    (fun t => if t.1 = g ∧ t.2.1 = y then some t.2.2 else none)

/-- Cell of `burden_grouped` (source line 63): sum of the surviving rows'
normalized burdens at a (group, year) key; `none` when no row contributes (the
groupby produces no such cell). -/
def burdenAt (mr : List MortRow) (g : String) (y : Int) : Option Rat :=
  if burdenVals mr g y = [] then none else some (burdenVals mr g y).sum

/-- Years carrying at least one cell of the burden series. -/
def burdenYears (mr : List MortRow) : List Int :=
  (normRows mr).map (fun t => t.2.1)

/-- Rows of `funding_long` contributing to the (group, year) cell of
`funding_grouped` (source lines 70–72): numeric funding, institute mapped to
the group. -/
def fundContrib (fr : List FundRow) (g : String) (y : Int) : List FundRow :=
  fr.filter (fun r =>
    decide (r.year = y ∧ nih_to_bisias_group r.institute = some g ∧ r.funding.isSome))

/-- Numeric funding amounts of the rows contributing to a (group, year) cell. -/
def fundVals (fr : List FundRow) (g : String) (y : Int) : List Rat :=
  (fundContrib fr g y).filterMap (fun r => r.funding)

/-- Cell of `funding_grouped` (source line 72): sum of the contributing rows'
funding; `none` when no row contributes. -/
def fundingAt (fr : List FundRow) (g : String) (y : Int) : Option Rat :=
  if fundVals fr g y = [] then none else some (fundVals fr g y).sum

/-- Impact years of a sweep cell (source line 80):
`range(year + lag, year + lag + window + 1)`, i.e. `window + 1` years. -/
def impactYears (year : Int) (lag window : Nat) : List Int :=
  (List.range (window + 1)).map (fun i => year + lag + i)

/-- Mean of a list of rationals, `none` on the empty list (pandas' groupby
mean never produces a row for an empty group). -/
def mean? (vals : List Rat) : Option Rat :=
  if vals = [] then none else some (vals.sum / (vals.length : Rat))

/-- Entry of `burden_avg` for a group (source lines 81–82): the mean over the
burden cells present among the impact years; `none` when the group has no cell
in any impact year. -/
def futureBurden (mr : List MortRow) (g : String) (year : Int) (lag window : Nat) :
    Option Rat :=
  mean? ((impactYears year lag window).filterMap (fun y => burdenAt mr g y))

/-- Emitted return observation (the rows appended on source line 90).  The
source keeps only Group, Start_Year, Lag and Return; the window is carried here
as provenance of the sweep cell that emitted the row. -/
structure Obs where
  group : String
  startYear : Int
  lag : Nat
  window : Nat
  ret : Rat
deriving DecidableEq

/-- Groups owning a `burden_prev` cell at the prior year (the rows of the
frame built on source line 83), each once. -/
def prevGroups (mr : List MortRow) (py : Int) : List String :=
  ((normRows mr).filterMap (fun t => if t.2.1 = py then some t.1 else none)).dedup

/-- One sweep cell (source lines 79–90): the two inner merges on `Group`
(lines 84 and 86) keep exactly the groups having a `burden_prev` cell, a
`burden_avg` entry and a `current_funding` cell; `Return = Burden_Change /
Funding` (line 87). -/
def cellObs (mr : List MortRow) (fr : List FundRow) (lag window : Nat) (year : Int) :
    List Obs :=
  (prevGroups mr (year + lag - 1)).filterMap (fun g =>
    match burdenAt mr g (year + lag - 1), futureBurden mr g year lag window,
        fundingAt fr g year with
    | some prev, some fut, some f => some ⟨g, year, lag, window, (prev - fut) / f⟩
    | _, _, _ => none)

/-- Lag values of the sweep: `range(9, 17)` (source line 76). -/
def sweepLags : List Nat := (List.range 8).map (fun i => 9 + i)

/-- Window values of the sweep: `range(1, 6)` (source line 77). -/
def sweepWindows : List Nat := (List.range 5).map (fun i => 1 + i)

/-- Start years of the sweep: `range(1999, 2021 - lag - window)` (source line
78); truncated `Nat` subtraction reproduces python's empty range when the upper
bound falls at or below 1999. -/
def sweepYears (lag window : Nat) : List Int :=
  (List.range (2021 - lag - window - 1999)).map (fun i => Int.ofNat (1999 + i))

/-- Full ROI sweep (source lines 75–92): all observations accumulated into
`roi_df`, over the Cartesian product of lags, windows and start years. -/
def roiObs (mr : List MortRow) (fr : List FundRow) : List Obs :=
  sweepLags.flatMap fun lag =>
    sweepWindows.flatMap fun window =>
      (sweepYears lag window).flatMap fun year =>
        cellObs mr fr lag window year

/-- Returns of the (Group, Lag) aggregation group of `roi_stats` (source line
93).  The sweep drops the window column before concatenation, so a group pools
every window and start year. -/
def groupReturns (mr : List MortRow) (fr : List FundRow) (g : String) (lag : Nat) :
    List Rat :=
  (roiObs mr fr).filterMap
    (fun o => if o.group = g ∧ o.lag = lag then some o.ret else none)

/-- Keys of the `roi_stats` table: the distinct (Group, Lag) pairs of
`roi_df`. -/
def roiKeys (mr : List MortRow) (fr : List FundRow) : List (String × Nat) :=
  ((roiObs mr fr).map (fun o => (o.group, o.lag))).dedup

/-- Group mean `Mean_Return` (pandas `mean`, source line 93). -/
def statMean (xs : List Rat) : Rat := xs.sum / (xs.length : Rat)

/-- Square of the group `Std_Dev` (pandas `std`, ddof = 1, source line 93):
the sample variance with `n − 1` denominator; `none` models the NaN standard
deviation of a group with fewer than two observations. -/
def sampleVar? (xs : List Rat) : Option Rat :=
  if xs.length < 2 then none
  else some ((xs.map (fun x => (x - statMean xs) ^ 2)).sum / ((xs.length - 1 : Nat) : Rat))

/-- Classification of `Stability_Score = Mean_Return / Std_Dev` (source line
94): the score is NaN when the standard deviation is NaN (fewer than two
observations), and NaN or an IEEE infinity when it is zero; in every other
case it is the finite value mean / √variance, represented here by the pair
(mean, variance).  `none` models a non-finite score. -/
def stability? (xs : List Rat) : Option (Rat × Rat) :=
  match sampleVar? xs with
  | none => none
  | some v => if v = 0 then none else some (statMean xs, v)

/-! Concrete input tables used by counterexamples and witnesses. -/

/-- Mortality table realizing the spec's worked scenario: reference population
100 for Neoplasms in 2005, and ONC burdens 0.05, 0.03, 0.02 in 2009–2011
(deaths 5, 3, 2 over the reference population 100). -/
def mortScen : List MortRow :=
  [⟨"Neoplasms", 2005, 1, some 100⟩,
   ⟨"Neoplasms", 2009, 5, some 100⟩,
   ⟨"Neoplasms", 2010, 3, some 100⟩,
   ⟨"Neoplasms", 2011, 2, some 100⟩]

/-- Funding table of the worked scenario: 100 for NCI (group ONC) in 2000. -/
def fundScen : List FundRow := [⟨"NCI", 2000, some 100⟩]

/-- Mortality table whose burden series covers only the years 2005, 2007 and
2008 (ONC burdens 0.01, 0.05, 0.03): windows reaching past 2008 are emitted
from whatever burden cells exist. -/
def mortCex : List MortRow :=
  [⟨"Neoplasms", 2005, 1, some 100⟩,
   ⟨"Neoplasms", 2007, 5, some 100⟩,
   ⟨"Neoplasms", 2008, 3, some 100⟩]

/-- Funding table pairing with `mortCex`: 100 for NCI in 1999. -/
def fundCex : List FundRow := [⟨"NCI", 1999, some 100⟩]

/-- Funding table with an explicit zero amount for NCI in 1999. -/
def fundZero : List FundRow := [⟨"NCI", 1999, some 0⟩]

/-- Mortality table whose single chapter has no 2005 row at all, hence no
reference population. -/
def mortNoRef : List MortRow := [⟨"Neoplasms", 2007, 5, some 100⟩]

/-- Funding table with NCI amounts in two consecutive years, giving the
(ONC, lag 10) aggregation group two observations with distinct returns. -/
def fundW : List FundRow := [⟨"NCI", 2000, some 100⟩, ⟨"NCI", 2001, some 100⟩]

/-! Formalized claim statements (used by the counterexamples). -/

/-- Prior year followed by the inclusive impact window of an observation:
the years the spec requires burden data for. -/
def requiredYears (o : Obs) : List Int :=
  (o.startYear + o.lag - 1) :: impactYears o.startYear o.lag o.window

/-- Claim C1 as stated: every emitted observation has a burden value at every
year of its impact window and its Return is prior burden minus the mean over
the whole window, divided by the funding amount. -/
def claimC1 (mr : List MortRow) (fr : List FundRow) : Prop :=
  ∀ o ∈ roiObs mr fr, ∃ prev f bs,
    burdenAt mr o.group (o.startYear + o.lag - 1) = some prev ∧
    fundingAt fr o.group o.startYear = some f ∧
    (impactYears o.startYear o.lag o.window).map (fun y => burdenAt mr o.group y)
      = bs.map some ∧
    o.ret = (prev - statMean bs) / f

/-- Claim C2 as stated: every emitted observation has a funding amount at its
start year and a burden value at every year of `[start+lag-1, start+lag+window]`. -/
def claimC2 (mr : List MortRow) (fr : List FundRow) : Prop :=
  ∀ o ∈ roiObs mr fr,
    (fundingAt fr o.group o.startYear).isSome ∧
    ∀ t ∈ requiredYears o, (burdenAt mr o.group t).isSome

/-- Claim C4 as stated (contrapositive form): every emitted observation's
funding amount is nonzero — zero funding never produces an observation. -/
def claimC4 (mr : List MortRow) (fr : List FundRow) : Prop :=
  ∀ o ∈ roiObs mr fr, ∀ f, fundingAt fr o.group o.startYear = some f → f ≠ 0

/-- Claim C5 as stated: every emitted observation satisfies
`startYear + lag + window ≤` the maximum year present in the burden series
(phrased as: some burden-series year bounds it). -/
def claimC5 (mr : List MortRow) (fr : List FundRow) : Prop :=
  ∀ o ∈ roiObs mr fr, ∃ y ∈ burdenYears mr, o.startYear + o.lag + o.window ≤ y

/-! Helper lemmas about the embedded pipeline. -/

/-- Unpacking membership in one sweep cell: the three inner joins of source
lines 84–87. -/
theorem mem_cellObs {mr : List MortRow} {fr : List FundRow} {lag window : Nat}
    {year : Int} {o : Obs} (h : o ∈ cellObs mr fr lag window year) :
    o.startYear = year ∧ o.lag = lag ∧ o.window = window ∧
    ∃ prev fut f,
      burdenAt mr o.group (year + lag - 1) = some prev ∧
      futureBurden mr o.group year lag window = some fut ∧
      fundingAt fr o.group year = some f ∧
      o.ret = (prev - fut) / f := by
  unfold cellObs at h
  rw [List.mem_filterMap] at h
  obtain ⟨g, _, hm⟩ := h
  split at hm
  · rename_i prev fut f hb hf hc
    injection hm with hm
    subst hm
    exact ⟨rfl, rfl, rfl, prev, fut, f, hb, hf, hc, rfl⟩
  · exact Option.noConfusion hm

/-- Membership in the full sweep output decomposes into a sweep cell. -/
theorem mem_roiObs {mr : List MortRow} {fr : List FundRow} {o : Obs}
    (h : o ∈ roiObs mr fr) :
    ∃ lag ∈ sweepLags, ∃ window ∈ sweepWindows, ∃ year ∈ sweepYears lag window,
      o ∈ cellObs mr fr lag window year := by
  unfold roiObs at h
  rw [List.mem_flatMap] at h
  obtain ⟨lag, hl, h⟩ := h
  rw [List.mem_flatMap] at h
  obtain ⟨window, hw, h⟩ := h
  rw [List.mem_flatMap] at h
  obtain ⟨year, hy, h⟩ := h
  exact ⟨lag, hl, window, hw, year, hy, h⟩

/-- Membership in one sweep cell lifts to the full sweep output. -/
theorem cell_mem_roiObs {mr : List MortRow} {fr : List FundRow} {lag window : Nat}
    {year : Int} {o : Obs} (hl : lag ∈ sweepLags) (hw : window ∈ sweepWindows)
    (hy : year ∈ sweepYears lag window) (h : o ∈ cellObs mr fr lag window year) :
    o ∈ roiObs mr fr := by
  unfold roiObs
  rw [List.mem_flatMap]
  exact ⟨lag, hl, List.mem_flatMap.mpr ⟨window, hw, List.mem_flatMap.mpr ⟨year, hy, h⟩⟩⟩

/-- Characterization of `mean?` on a nonempty list. -/
theorem mean?_eq_some {vals : List Rat} {m : Rat} (h : mean? vals = some m) :
    vals ≠ [] ∧ m = statMean vals := by
  unfold mean? at h
  split at h
  · exact Option.noConfusion h
  · rename_i hne
    injection h with h
    exact ⟨hne, h.symm⟩

/-- An averaged future burden exists only if some impact year carries a burden
cell. -/
theorem futureBurden_some {mr : List MortRow} {g : String} {year : Int}
    {lag window : Nat} {fut : Rat}
    (h : futureBurden mr g year lag window = some fut) :
    ∃ t ∈ impactYears year lag window, (burdenAt mr g t).isSome := by
  unfold futureBurden at h
  obtain ⟨hne, _⟩ := mean?_eq_some h
  obtain ⟨b, hb⟩ := List.exists_mem_of_ne_nil _ hne
  rw [List.mem_filterMap] at hb
  obtain ⟨t, ht, hbt⟩ := hb
  exact ⟨t, ht, by rw [hbt]; rfl⟩

/-- Unpacking a kept burden-contribution: the chapter maps to the group and
the value is deaths over the reference population. -/
theorem normOf_some {mr : List MortRow} {r : MortRow} {g : String} {b : Rat}
    (h : normOf mr r = some (g, b)) :
    icd_to_bisias r.chapter = some g ∧
    ∃ p, pop2005 mr r.chapter = some p ∧ b = r.deaths / p := by
  unfold normOf at h
  split at h
  · exact Option.noConfusion h
  · rename_i p hp
    split at h
    · exact Option.noConfusion h
    · split at h
      · exact Option.noConfusion h
      · rename_i g2 hi
        injection h with h
        rw [Prod.mk.injEq] at h
        exact ⟨h.1 ▸ hi, p, hp, h.2.symm⟩

/-- A burden cell exists only from a mortality row whose chapter maps to the
group. -/
theorem burdenAt_isSome {mr : List MortRow} {g : String} {y : Int}
    (h : (burdenAt mr g y).isSome) :
    ∃ r ∈ mr, icd_to_bisias r.chapter = some g := by
  unfold burdenAt at h
  split at h
  · exact absurd h (by simp)
  · rename_i hne
    obtain ⟨b, hb⟩ := List.exists_mem_of_ne_nil _ hne
    unfold burdenVals at hb
    rw [List.mem_filterMap] at hb
    obtain ⟨t, ht, hbt⟩ := hb
    have htg : t.1 = g := by
      by_cases hc : t.1 = g ∧ t.2.1 = y
      · exact hc.1
      · rw [if_neg hc] at hbt; exact Option.noConfusion hbt
    unfold normRows at ht
    rw [List.mem_filterMap] at ht
    obtain ⟨r, hr, hro⟩ := ht
    cases hn : normOf mr r with
    | none => rw [hn] at hro; exact Option.noConfusion hro
    | some gb =>
      obtain ⟨g1, b1⟩ := gb
      rw [hn] at hro
      injection hro with hro
      have hg1 : g1 = g := by rw [← htg, ← hro]
      obtain ⟨hicd, _⟩ := normOf_some hn
      exact ⟨r, hr, hg1 ▸ hicd⟩

/-- A funding cell exists only from a funding row whose institute maps to the
group. -/
theorem fundingAt_isSome {fr : List FundRow} {g : String} {y : Int}
    (h : (fundingAt fr g y).isSome) :
    ∃ s ∈ fr, nih_to_bisias_group s.institute = some g ∧ s.funding.isSome := by
  unfold fundingAt at h
  split at h
  · exact absurd h (by simp)
  · rename_i hne
    obtain ⟨b, hb⟩ := List.exists_mem_of_ne_nil _ hne
    unfold fundVals at hb
    rw [List.mem_filterMap] at hb
    obtain ⟨s, hs, hsf⟩ := hb
    unfold fundContrib at hs
    rw [List.mem_filter] at hs
    obtain ⟨hs, hcond⟩ := hs
    rw [decide_eq_true_iff] at hcond
    exact ⟨s, hs, hcond.2.1, hcond.2.2⟩

/-- Building membership in one sweep cell from its three join components. -/
theorem mem_cellObs_intro {mr : List MortRow} {fr : List FundRow} {lag window : Nat}
    {year : Int} {g : String} {prev fut f : Rat}
    (hg : g ∈ prevGroups mr (year + lag - 1))
    (hb : burdenAt mr g (year + lag - 1) = some prev)
    (hf : futureBurden mr g year lag window = some fut)
    (hfd : fundingAt fr g year = some f) :
    (⟨g, year, lag, window, (prev - fut) / f⟩ : Obs) ∈ cellObs mr fr lag window year := by
  unfold cellObs
  rw [List.mem_filterMap]
  refine ⟨g, hg, ?_⟩
  rw [hb, hf, hfd]

/-- Every emitted observation contributes its (group, lag) key to the
`roi_stats` table. -/
theorem roiKeys_of_mem {mr : List MortRow} {fr : List FundRow} {o : Obs}
    (h : o ∈ roiObs mr fr) : (o.group, o.lag) ∈ roiKeys mr fr := by
  unfold roiKeys
  rw [List.mem_dedup, List.mem_map]
  exact ⟨o, h, rfl⟩

/-- Every emitted observation contributes its return to its aggregation
group. -/
theorem groupReturns_of_mem {mr : List MortRow} {fr : List FundRow} {o : Obs}
    (h : o ∈ roiObs mr fr) : o.ret ∈ groupReturns mr fr o.group o.lag := by
  unfold groupReturns
  rw [List.mem_filterMap]
  exact ⟨o, h, by rw [if_pos ⟨rfl, rfl⟩]⟩

/-- A list containing two distinct elements has length at least two. -/
theorem two_le_length_of_mem {α : Type} {a b : α} {l : List α}
    (ha : a ∈ l) (hb : b ∈ l) (hne : a ≠ b) : 2 ≤ l.length := by
  cases l with
  | nil => exact absurd ha (List.not_mem_nil a)
  | cons x t =>
    cases t with
    | nil =>
      rw [List.mem_singleton] at ha hb
      exact absurd (ha.trans hb.symm) hne
    | cons y u =>
      simp only [List.length_cons]
      omega

/-- Bounds carried by membership in the sweep's start-year range. -/
theorem sweepYears_bound {lag window : Nat} {year : Int}
    (h : year ∈ sweepYears lag window) :
    1999 ≤ year ∧ year + lag + window ≤ 2020 := by
  unfold sweepYears at h
  simp only [List.mem_map, List.mem_range] at h
  obtain ⟨i, hi, rfl⟩ := h
  simp only [Int.ofNat_eq_coe]
  push_cast
  omega

/-- Bounds carried by membership in the sweep's lag range. -/
theorem sweepLags_bound {lag : Nat} (h : lag ∈ sweepLags) : 9 ≤ lag ∧ lag ≤ 16 := by
  unfold sweepLags at h
  simp only [List.mem_map, List.mem_range] at h
  obtain ⟨i, hi, rfl⟩ := h
  omega

/-- Bounds carried by membership in the sweep's window range. -/
theorem sweepWindows_bound {window : Nat} (h : window ∈ sweepWindows) :
    1 ≤ window ∧ window ≤ 5 := by
  unfold sweepWindows at h
  simp only [List.mem_map, List.mem_range] at h
  obtain ⟨i, hi, rfl⟩ := h
  omega


set_option maxRecDepth 4000 in
/-- Membership of the worked scenario's observation (ONC, 2000, lag 10,
window 1, Return 1/4000) in the sweep output over the scenario tables. -/
theorem scenObs_mem :
    (⟨"ONC", 2000, 10, 1, 1/4000⟩ : Obs) ∈ roiObs mortScen fundScen := by
  have hc : (⟨"ONC", 2000, 10, 1, ((1 : Rat)/20 - 1/40) / 100⟩ : Obs)
      ∈ cellObs mortScen fundScen 10 1 2000 :=
    mem_cellObs_intro (by with_unfolding_all decide) (by with_unfolding_all decide)
      (by with_unfolding_all decide) (by with_unfolding_all decide)
  have h1 : (⟨"ONC", 2000, 10, 1, ((1 : Rat)/20 - 1/40) / 100⟩ : Obs)
      ∈ roiObs mortScen fundScen :=
    cell_mem_roiObs (by decide) (by decide) (by with_unfolding_all decide) hc
  have heq : (⟨"ONC", 2000, 10, 1, 1/4000⟩ : Obs)
      = ⟨"ONC", 2000, 10, 1, ((1 : Rat)/20 - 1/40) / 100⟩ := by
    simp only [Obs.mk.injEq]
    norm_num
  rw [heq]
  exact h1

set_option maxRecDepth 4000 in
/-- Membership of the partial-window observation (ONC, 1999, lag 9, window 1)
in the sweep output over `mortCex`/`fundCex`: the impact year 2009 has no
burden cell, yet the row is emitted. -/
theorem cexObs_mem :
    (⟨"ONC", 1999, 9, 1, ((1 : Rat)/20 - 3/100) / 100⟩ : Obs)
      ∈ roiObs mortCex fundCex :=
  cell_mem_roiObs (by decide) (by decide) (by with_unfolding_all decide)
    (mem_cellObs_intro (by with_unfolding_all decide) (by with_unfolding_all decide)
      (by with_unfolding_all decide) (by with_unfolding_all decide))

set_option maxRecDepth 4000 in
/-- Membership of the observation (ONC, 1999, lag 9, window 5) over
`mortCex`/`fundCex`: its window reaches 2013, past every burden year. -/
theorem cexObs5_mem :
    (⟨"ONC", 1999, 9, 5, ((1 : Rat)/20 - 3/100) / 100⟩ : Obs)
      ∈ roiObs mortCex fundCex :=
  cell_mem_roiObs (by decide) (by decide) (by with_unfolding_all decide)
    (mem_cellObs_intro (by with_unfolding_all decide) (by with_unfolding_all decide)
      (by with_unfolding_all decide) (by with_unfolding_all decide))

set_option maxRecDepth 4000 in
/-- Membership of an observation emitted from a ZERO funding amount (the
model's division by zero is the junk value of `Rat`). -/
theorem cexObs0_mem :
    (⟨"ONC", 1999, 9, 1, ((1 : Rat)/20 - 3/100) / 0⟩ : Obs)
      ∈ roiObs mortCex fundZero :=
  cell_mem_roiObs (by decide) (by decide) (by with_unfolding_all decide)
    (mem_cellObs_intro (by with_unfolding_all decide) (by with_unfolding_all decide)
      (by with_unfolding_all decide) (by with_unfolding_all decide))

set_option maxRecDepth 4000 in
/-- First of two observations of the (ONC, lag 10) group over
`mortScen`/`fundW`. -/
theorem wObs1_mem :
    (⟨"ONC", 2000, 10, 1, ((1 : Rat)/20 - 1/40) / 100⟩ : Obs)
      ∈ roiObs mortScen fundW :=
  cell_mem_roiObs (by decide) (by decide) (by with_unfolding_all decide)
    (mem_cellObs_intro (by with_unfolding_all decide) (by with_unfolding_all decide)
      (by with_unfolding_all decide) (by with_unfolding_all decide))

set_option maxRecDepth 4000 in
/-- Second of two observations of the (ONC, lag 10) group over
`mortScen`/`fundW`, with a different return. -/
theorem wObs2_mem :
    (⟨"ONC", 2001, 10, 1, ((3 : Rat)/100 - 1/50) / 100⟩ : Obs)
      ∈ roiObs mortScen fundW :=
  cell_mem_roiObs (by decide) (by decide) (by with_unfolding_all decide)
    (mem_cellObs_intro (by with_unfolding_all decide) (by with_unfolding_all decide)
      (by with_unfolding_all decide) (by with_unfolding_all decide))

/-! Theorems settling the claims. -/

set_option maxHeartbeats 1000000 in
/-- C10: the composed taxonomy map is total on the domain of the
chapter-to-institute dictionary — every ICD chapter with an institute entry
has a Bisias disease group, so `icd_to_bisias` never yields `None` there and
the group-mapping step never drops such a chapter's rows. -/
theorem c10_taxonomy_total (icd nih : String) (h : icd_to_nih icd = some nih) :
    (nih_to_bisias_group nih).isSome ∧ (icd_to_bisias icd).isSome := by
  have h2 : (nih_to_bisias_group nih).isSome := by
    unfold icd_to_nih at h
    by_cases hc0 : icd = "Neoplasms"
    · rw [if_pos hc0] at h; injection h with h; subst h; decide
    · rw [if_neg hc0] at h
      by_cases hc1 : icd = "Diseases of the circulatory system"
      · rw [if_pos hc1] at h; injection h with h; subst h; decide
      · rw [if_neg hc1] at h
        by_cases hc2 : icd = "Diseases of the respiratory system"
        · rw [if_pos hc2] at h; injection h with h; subst h; decide
        · rw [if_neg hc2] at h
          by_cases hc3 : icd = "Endocrine, nutritional and metabolic diseases"
          · rw [if_pos hc3] at h; injection h with h; subst h; decide
          · rw [if_neg hc3] at h
            by_cases hc4 : icd = "Diseases of the nervous system"
            · rw [if_pos hc4] at h; injection h with h; subst h; decide
            · rw [if_neg hc4] at h
              by_cases hc5 : icd = "Mental and behavioural disorders"
              · rw [if_pos hc5] at h; injection h with h; subst h; decide
              · rw [if_neg hc5] at h
                by_cases hc6 : icd = "Diseases of the genitourinary system"
                · rw [if_pos hc6] at h; injection h with h; subst h; decide
                · rw [if_neg hc6] at h
                  by_cases hc7 : icd = "Diseases of the digestive system"
                  · rw [if_pos hc7] at h; injection h with h; subst h; decide
                  · rw [if_neg hc7] at h
                    by_cases hc8 : icd = "Diseases of the musculoskeletal system and connective tissue"
                    · rw [if_pos hc8] at h; injection h with h; subst h; decide
                    · rw [if_neg hc8] at h
                      by_cases hc9 : icd = "Diseases of the skin and subcutaneous tissue"
                      · rw [if_pos hc9] at h; injection h with h; subst h; decide
                      · rw [if_neg hc9] at h
                        by_cases hc10 : icd = "Certain infectious and parasitic diseases"
                        · rw [if_pos hc10] at h; injection h with h; subst h; decide
                        · rw [if_neg hc10] at h
                          by_cases hc11 : icd = "Diseases of the blood and blood-forming organs"
                          · rw [if_pos hc11] at h; injection h with h; subst h; decide
                          · rw [if_neg hc11] at h
                            by_cases hc12 : icd = "Diseases of the eye and adnexa"
                            · rw [if_pos hc12] at h; injection h with h; subst h; decide
                            · rw [if_neg hc12] at h
                              by_cases hc13 : icd = "Diseases of the ear and mastoid process"
                              · rw [if_pos hc13] at h; injection h with h; subst h; decide
                              · rw [if_neg hc13] at h
                                by_cases hc14 : icd = "Congenital malformations, deformations and chromosomal abnormalities"
                                · rw [if_pos hc14] at h; injection h with h; subst h; decide
                                · rw [if_neg hc14] at h
                                  by_cases hc15 : icd = "Certain conditions originating in the perinatal period"
                                  · rw [if_pos hc15] at h; injection h with h; subst h; decide
                                  · rw [if_neg hc15] at h
                                    by_cases hc16 : icd = "Pregnancy, childbirth and the puerperium"
                                    · rw [if_pos hc16] at h; injection h with h; subst h; decide
                                    · rw [if_neg hc16] at h
                                      by_cases hc17 : icd = "Symptoms, signs and abnormal clinical and laboratory findings, not elsewhere classified"
                                      · rw [if_pos hc17] at h; injection h with h; subst h; decide
                                      · rw [if_neg hc17] at h
                                        exact Option.noConfusion h
  refine ⟨h2, ?_⟩
  unfold icd_to_bisias
  rw [h, Option.some_bind]
  exact h2

/-- Witness for C10 at the chapter Neoplasms. -/
theorem c10_witness :
    icd_to_nih "Neoplasms" = some "NCI" ∧
    (nih_to_bisias_group "NCI").isSome ∧ (icd_to_bisias "Neoplasms").isSome :=
  ⟨rfl, c10_taxonomy_total "Neoplasms" "NCI" rfl⟩

/-- C9: determinism — equal input tables under the fixed parameter sweep
produce identical burden cells, funding cells, observation relations and
aggregation results. -/
theorem c9_determinism (mr1 mr2 : List MortRow) (fr1 fr2 : List FundRow)
    (hm : mr1 = mr2) (hf : fr1 = fr2) :
    roiObs mr1 fr1 = roiObs mr2 fr2 ∧
    (∀ g y, burdenAt mr1 g y = burdenAt mr2 g y ∧
      fundingAt fr1 g y = fundingAt fr2 g y) ∧
    roiKeys mr1 fr1 = roiKeys mr2 fr2 ∧
    ∀ g lag, groupReturns mr1 fr1 g lag = groupReturns mr2 fr2 g lag ∧
      statMean (groupReturns mr1 fr1 g lag) = statMean (groupReturns mr2 fr2 g lag) ∧
      sampleVar? (groupReturns mr1 fr1 g lag) = sampleVar? (groupReturns mr2 fr2 g lag) ∧
      stability? (groupReturns mr1 fr1 g lag) = stability? (groupReturns mr2 fr2 g lag) := by
  subst hm; subst hf
  exact ⟨rfl, fun _ _ => ⟨rfl, rfl⟩, rfl, fun _ _ => ⟨rfl, rfl, rfl, rfl⟩⟩

/-- Witness for C9 on the scenario tables. -/
theorem c9_witness :
    mortScen = mortScen ∧ fundScen = fundScen ∧
    roiObs mortScen fundScen = roiObs mortScen fundScen :=
  ⟨rfl, rfl, (c9_determinism mortScen mortScen fundScen fundScen rfl rfl).1⟩

/-- C8: a row whose category is unmapped contributes to nothing — it is
dropped from the burden series and the funding series, every populated cell
traces back to a mapped row, and every emitted observation's group is the
image of some mapped mortality row and some mapped funding row; no zero-valued
substitute cell is ever produced. -/
theorem c8_unmapped_excluded (mr : List MortRow) (fr : List FundRow)
    (r : MortRow) (s : FundRow) (g : String) (y : Int) :
    (icd_to_bisias r.chapter = none → normOf mr r = none) ∧
    (nih_to_bisias_group s.institute = none → s ∉ fundContrib fr g y) ∧
    ((burdenAt mr g y).isSome → ∃ r2 ∈ mr, icd_to_bisias r2.chapter = some g) ∧
    ((fundingAt fr g y).isSome →
      ∃ s2 ∈ fr, nih_to_bisias_group s2.institute = some g) ∧
    (∀ o ∈ roiObs mr fr,
      (∃ r2 ∈ mr, icd_to_bisias r2.chapter = some o.group) ∧
      ∃ s2 ∈ fr, nih_to_bisias_group s2.institute = some o.group) := by
  refine ⟨?_, ?_, fun h => burdenAt_isSome h, ?_, ?_⟩
  · intro hi
    unfold normOf
    split
    · rfl
    · split
      · rfl
      · rw [hi]
  · intro hn hmem
    unfold fundContrib at hmem
    rw [List.mem_filter] at hmem
    obtain ⟨_, hcond⟩ := hmem
    rw [decide_eq_true_iff] at hcond
    rw [hn] at hcond
    exact Option.noConfusion hcond.2.1
  · intro h
    obtain ⟨s2, hs2, hmap, _⟩ := fundingAt_isSome h
    exact ⟨s2, hs2, hmap⟩
  · intro o ho
    obtain ⟨lag, _, window, _, year, _, hc⟩ := mem_roiObs ho
    obtain ⟨hy, _, _, prev, fut, f, hb, _, hfd, _⟩ := mem_cellObs hc
    constructor
    · exact burdenAt_isSome (by rw [hb]; rfl)
    · obtain ⟨s2, hs2, hmap, _⟩ := fundingAt_isSome (g := o.group) (by rw [hfd]; rfl)
      exact ⟨s2, hs2, hmap⟩

/-- Witness for C8 at an unmapped ICD chapter and an unmapped institute. -/
theorem c8_witness :
    icd_to_bisias "External causes of morbidity and mortality" = none ∧
    normOf mortScen ⟨"External causes of morbidity and mortality", 2005, 1, some 100⟩ = none ∧
    nih_to_bisias_group "OD" = none ∧
    (⟨"OD", 2000, some 5⟩ : FundRow) ∉ fundContrib fundScen "ONC" 2000 := by
  have h8 := c8_unmapped_excluded mortScen fundScen
    ⟨"External causes of morbidity and mortality", 2005, 1, some 100⟩
    ⟨"OD", 2000, some 5⟩ "ONC" 2000
  exact ⟨by decide, h8.1 (by decide), by decide, h8.2.1 (by decide)⟩

/-- C6: the normalized burden of every kept mortality row is its deaths over
the per-chapter reference population; the reference population is the mean of
the numerically coerced 2005 populations of the chapter, it is absent exactly
when the chapter has no numeric 2005 population, and a row of a chapter with
no reference population is excluded from the burden series entirely. -/
theorem c6_burden_normalization (mr : List MortRow) (r : MortRow) :
    (∀ g b, normOf mr r = some (g, b) →
      ∃ p, pop2005 mr r.chapter = some p ∧ b = r.deaths / p) ∧
    (∀ p, pop2005 mr r.chapter = some p →
      refVals mr r.chapter ≠ [] ∧
      p * ((refVals mr r.chapter).length : Rat) = (refVals mr r.chapter).sum) ∧
    (pop2005 mr r.chapter = none ↔
      ∀ r2 ∈ mr, r2.chapter = r.chapter → r2.year = 2005 → r2.population = none) ∧
    (pop2005 mr r.chapter = none → normOf mr r = none) := by
  refine ⟨?_, ?_, ?_, ?_⟩
  · intro g b h
    exact (normOf_some h).2
  · intro p hp
    unfold pop2005 at hp
    split at hp
    · exact Option.noConfusion hp
    · rename_i hne
      injection hp with hp
      refine ⟨hne, ?_⟩
      rw [← hp]
      exact div_mul_cancel₀ _
        (Nat.cast_ne_zero.mpr (List.length_pos.mpr hne).ne')
  · constructor
    · intro hp r2 hr2 hch hyr
      unfold pop2005 at hp
      split at hp
      · rename_i hemp
        unfold refVals at hemp
        rw [List.filterMap_eq_nil_iff] at hemp
        exact hemp r2 (List.mem_filter.mpr
          ⟨hr2, decide_eq_true_iff.mpr ⟨hch, hyr⟩⟩)
      · exact Option.noConfusion hp
    · intro hall
      unfold pop2005
      rw [if_pos ?_]
      unfold refVals
      rw [List.filterMap_eq_nil_iff]
      intro r2 hr2
      rw [List.mem_filter, decide_eq_true_iff] at hr2
      exact hall r2 hr2.1 hr2.2.1 hr2.2.2
  · intro hp
    unfold normOf
    rw [hp]

/-- Witness for C6 at a chapter with no 2005 row. -/
theorem c6_witness :
    pop2005 mortNoRef "Neoplasms" = none ∧
    normOf mortNoRef ⟨"Neoplasms", 2007, 5, some 100⟩ = none := by
  have h6 := c6_burden_normalization mortNoRef ⟨"Neoplasms", 2007, 5, some 100⟩
  have hp : pop2005 mortNoRef "Neoplasms" = none :=
    h6.2.2.1.mpr (by decide)
  exact ⟨hp, h6.2.2.2 hp⟩

/-- C3: for every (group, lag) key of the `roi_stats` table, the stability
score is non-finite (NaN or an infinity) exactly when the standard deviation
is zero or the group has fewer than two observations, and in every other case
it is the finite value mean over standard deviation (represented by the
mean/variance pair). -/
theorem c3_stability_undefined_iff (mr : List MortRow) (fr : List FundRow)
    (g : String) (lag : Nat) (_hk : (g, lag) ∈ roiKeys mr fr) :
    (stability? (groupReturns mr fr g lag) = none ↔
      sampleVar? (groupReturns mr fr g lag) = some 0 ∨
      (groupReturns mr fr g lag).length < 2) ∧
    ∀ m v, stability? (groupReturns mr fr g lag) = some (m, v) →
      m = statMean (groupReturns mr fr g lag) ∧
      sampleVar? (groupReturns mr fr g lag) = some v ∧ v ≠ 0 := by
  generalize groupReturns mr fr g lag = xs
  have hlen : sampleVar? xs = none ↔ xs.length < 2 := by
    unfold sampleVar?
    split
    · rename_i hl
      exact iff_of_true rfl hl
    · rename_i hl
      exact iff_of_false (by simp) hl
  cases hv : sampleVar? xs with
  | none =>
    constructor
    · refine iff_of_true ?_ (Or.inr (hlen.mp hv))
      unfold stability?
      rw [hv]
    · intro m v hsome
      unfold stability? at hsome
      rw [hv] at hsome
      have hsome2 : (none : Option (Rat × Rat)) = some (m, v) := hsome
      exact Option.noConfusion hsome2
  | some v0 =>
    have hge : ¬ xs.length < 2 := fun h2 => by
      rw [hlen.mpr h2] at hv
      exact Option.noConfusion hv
    by_cases hv0 : v0 = 0
    · subst hv0
      constructor
      · refine iff_of_true ?_ (Or.inl rfl)
        unfold stability?
        rw [hv]
        show (if (0 : Rat) = 0 then none else some (statMean xs, (0 : Rat)))
            = (none : Option (Rat × Rat))
        rw [if_pos rfl]
      · intro m v hsome
        unfold stability? at hsome
        rw [hv] at hsome
        have hsome2 : (if (0 : Rat) = 0 then (none : Option (Rat × Rat))
            else some (statMean xs, (0 : Rat))) = some (m, v) := hsome
        rw [if_pos rfl] at hsome2
        exact Option.noConfusion hsome2
    · constructor
      · apply iff_of_false
        · intro hc
          unfold stability? at hc
          rw [hv] at hc
          have hc2 : (if v0 = 0 then (none : Option (Rat × Rat))
              else some (statMean xs, v0)) = none := hc
          rw [if_neg hv0] at hc2
          exact Option.noConfusion hc2
        · rintro (h0 | h2)
          · injection h0 with h0
            exact hv0 h0
          · exact hge h2
      · intro m v hsome
        unfold stability? at hsome
        rw [hv] at hsome
        have hsome2 : (if v0 = 0 then (none : Option (Rat × Rat))
            else some (statMean xs, v0)) = some (m, v) := hsome
        rw [if_neg hv0] at hsome2
        injection hsome2 with hsome2
        rw [Prod.mk.injEq] at hsome2
        exact ⟨hsome2.1.symm, by rw [hsome2.2], hsome2.2 ▸ hv0⟩

/-- Witness for C3 at the scenario key (ONC, 10). -/
theorem c3_witness :
    ("ONC", 10) ∈ roiKeys mortScen fundScen ∧
    (stability? (groupReturns mortScen fundScen "ONC" 10) = none ↔
      sampleVar? (groupReturns mortScen fundScen "ONC" 10) = some 0 ∨
      (groupReturns mortScen fundScen "ONC" 10).length < 2) := by
  have hk : ("ONC", 10) ∈ roiKeys mortScen fundScen := roiKeys_of_mem scenObs_mem
  exact ⟨hk, (c3_stability_undefined_iff mortScen fundScen "ONC" 10 hk).1⟩

/-- C7: the aggregation groups observations by (group, lag) — pooling windows
and start years — and on every group with at least two observations the mean
is the arithmetic mean, the variance (squared standard deviation) uses the
n − 1 denominator, and the stability score is mean over standard deviation,
non-finite when the variance is zero. -/
theorem c7_roi_aggregation (mr : List MortRow) (fr : List FundRow)
    (g : String) (lag : Nat) (_hk : (g, lag) ∈ roiKeys mr fr)
    (hn : 2 ≤ (groupReturns mr fr g lag).length) :
    (∀ o ∈ roiObs mr fr, o.group = g → o.lag = lag →
      o.ret ∈ groupReturns mr fr g lag) ∧
    statMean (groupReturns mr fr g lag) * ((groupReturns mr fr g lag).length : Rat)
      = (groupReturns mr fr g lag).sum ∧
    ∃ v, sampleVar? (groupReturns mr fr g lag) = some v ∧
      v * (((groupReturns mr fr g lag).length - 1 : Nat) : Rat)
        = ((groupReturns mr fr g lag).map
            (fun x => (x - statMean (groupReturns mr fr g lag)) ^ 2)).sum ∧
      stability? (groupReturns mr fr g lag)
        = if v = 0 then none
          else some (statMean (groupReturns mr fr g lag), v) := by
  refine ⟨?_, ?_, ?_⟩
  · intro o ho hg hl
    unfold groupReturns
    rw [List.mem_filterMap]
    exact ⟨o, ho, by rw [if_pos ⟨hg, hl⟩]⟩
  · unfold statMean
    exact div_mul_cancel₀ _ (Nat.cast_ne_zero.mpr (by omega))
  · have hv : sampleVar? (groupReturns mr fr g lag)
        = some (((groupReturns mr fr g lag).map
            (fun x => (x - statMean (groupReturns mr fr g lag)) ^ 2)).sum
          / (((groupReturns mr fr g lag).length - 1 : Nat) : Rat)) := by
      unfold sampleVar?
      rw [if_neg (by omega)]
    refine ⟨_, hv, ?_, ?_⟩
    · exact div_mul_cancel₀ _ (Nat.cast_ne_zero.mpr (by omega))
    · unfold stability?
      rw [hv]

set_option maxRecDepth 4000 in
/-- Witness for C7 at the key (ONC, 10) over `mortScen`/`fundW`, whose group
holds two observations with distinct returns. -/
theorem c7_witness :
    ("ONC", 10) ∈ roiKeys mortScen fundW ∧
    2 ≤ (groupReturns mortScen fundW "ONC" 10).length ∧
    statMean (groupReturns mortScen fundW "ONC" 10)
        * ((groupReturns mortScen fundW "ONC" 10).length : Rat)
      = (groupReturns mortScen fundW "ONC" 10).sum := by
  have hk : ("ONC", 10) ∈ roiKeys mortScen fundW := roiKeys_of_mem wObs1_mem
  have hn : 2 ≤ (groupReturns mortScen fundW "ONC" 10).length :=
    two_le_length_of_mem (groupReturns_of_mem wObs1_mem)
      (groupReturns_of_mem wObs2_mem) (by with_unfolding_all decide)
  exact ⟨hk, hn, (c7_roi_aggregation mortScen fundW "ONC" 10 hk hn).2.1⟩

set_option maxRecDepth 4000 in
/-- C2 counterexample: on `mortCex`/`fundCex` the sweep emits the observation
(ONC, 1999, lag 9, window 1) although the burden series has no cell at the
impact year 2009 — a partial window is emitted. -/
theorem c2_counterexample : ¬ claimC2 mortCex fundCex := by
  intro h
  have h2 := (h _ cexObs_mem).2 2009 (by with_unfolding_all decide)
  exact absurd h2 (by with_unfolding_all decide)

/-- C2 amended: an emitted observation guarantees a funding cell at the start
year, a burden cell at the prior year `start + lag - 1`, and a burden cell at
AT LEAST ONE impact year — not at all of them. -/
theorem c2_join_presence_amended (mr : List MortRow) (fr : List FundRow)
    (o : Obs) (h : o ∈ roiObs mr fr) :
    (fundingAt fr o.group o.startYear).isSome ∧
    (burdenAt mr o.group (o.startYear + o.lag - 1)).isSome ∧
    ∃ t ∈ impactYears o.startYear o.lag o.window, (burdenAt mr o.group t).isSome := by
  obtain ⟨lag, _, window, _, year, _, hc⟩ := mem_roiObs h
  obtain ⟨hy, hl, hw, prev, fut, f, hb, hf, hfd, _⟩ := mem_cellObs hc
  subst hy; subst hl; subst hw
  exact ⟨by rw [hfd]; rfl, by rw [hb]; rfl, futureBurden_some hf⟩

/-- Witness for the amended C2 at the scenario observation. -/
theorem c2_witness :
    (⟨"ONC", 2000, 10, 1, 1/4000⟩ : Obs) ∈ roiObs mortScen fundScen ∧
    (fundingAt fundScen "ONC" 2000).isSome ∧
    (burdenAt mortScen "ONC" ((2000 : Int) + (10 : Nat) - 1)).isSome ∧
    ∃ t ∈ impactYears 2000 10 1, (burdenAt mortScen "ONC" t).isSome :=
  ⟨scenObs_mem, c2_join_presence_amended mortScen fundScen _ scenObs_mem⟩

set_option maxRecDepth 4000 in
/-- C1 counterexample: on `mortCex`/`fundCex` the observation
(ONC, 1999, lag 9, window 1) is emitted although the burden series has no
value at the impact year 2009, so its Return cannot be the claimed mean over
the whole window. -/
theorem c1_counterexample : ¬ claimC1 mortCex fundCex := by
  intro h
  obtain ⟨prev, f, bs, _, _, hmap, _⟩ := h _ cexObs_mem
  have hnone : (none : Option Rat) ∈ bs.map some := by
    rw [← hmap]
    with_unfolding_all decide
  rw [List.mem_map] at hnone
  obtain ⟨b, _, hb⟩ := hnone
  exact Option.noConfusion hb

/-- C1 amended: the Return of an emitted observation is the prior-year burden
minus the mean of the burden cells PRESENT among the impact years (at least
one such cell exists), divided by the funding amount (stated for nonzero
funding, where the quotient is a real number); the spec's worked scenario
(funding 100 in 2000, burdens 0.05/0.03/0.02 in 2009–2011, lag 10, window 1)
does yield Return 0.00025 = 1/4000. -/
theorem c1_return_formula_amended :
    (∀ (mr : List MortRow) (fr : List FundRow), ∀ o ∈ roiObs mr fr,
      ∃ prev f,
        burdenAt mr o.group (o.startYear + o.lag - 1) = some prev ∧
        fundingAt fr o.group o.startYear = some f ∧
        (impactYears o.startYear o.lag o.window).filterMap
          (fun y => burdenAt mr o.group y) ≠ [] ∧
        (f ≠ 0 → o.ret =
          (prev - statMean ((impactYears o.startYear o.lag o.window).filterMap
            (fun y => burdenAt mr o.group y))) / f)) ∧
    (⟨"ONC", 2000, 10, 1, 1/4000⟩ : Obs) ∈ roiObs mortScen fundScen := by
  constructor
  · intro mr fr o h
    obtain ⟨lag, _, window, _, year, _, hc⟩ := mem_roiObs h
    obtain ⟨hy, hl, hw, prev, fut, f, hb, hf, hfd, hret⟩ := mem_cellObs hc
    subst hy; subst hl; subst hw
    obtain ⟨hne, hfut⟩ := mean?_eq_some hf
    refine ⟨prev, f, hb, hfd, hne, fun _ => ?_⟩
    rw [hret, hfut]
  · exact scenObs_mem

/-- Witness for the amended C1 at the scenario observation, whose membership
is the second half of the amended theorem itself. -/
theorem c1_witness :
    ∃ prev f,
      burdenAt mortScen "ONC" ((2000 : Int) + (10 : Nat) - 1) = some prev ∧
      fundingAt fundScen "ONC" 2000 = some f ∧
      (impactYears 2000 10 1).filterMap
        (fun y => burdenAt mortScen "ONC" y) ≠ [] ∧
      (f ≠ 0 → (1/4000 : Rat) =
        (prev - statMean ((impactYears 2000 10 1).filterMap
          (fun y => burdenAt mortScen "ONC" y))) / f) :=
  c1_return_formula_amended.1 mortScen fundScen ⟨"ONC", 2000, 10, 1, 1/4000⟩
    c1_return_formula_amended.2

set_option maxRecDepth 4000 in
/-- C4 counterexample: with an explicit zero funding amount for NCI in 1999
the sweep still emits observations for ONC — zero funding is not excluded
(the code computes an infinite or NaN Return there; the model stores the junk
value of division by zero). -/
theorem c4_counterexample : ¬ claimC4 mortCex fundZero := by
  intro h
  exact h _ cexObs0_mem 0 (by with_unfolding_all decide) rfl

/-- C4 amended: an emitted observation guarantees only that the funding CELL
exists (the category has a numeric funding row at the start year); a zero
amount is not filtered out. -/
theorem c4_funding_presence_amended (mr : List MortRow) (fr : List FundRow)
    (o : Obs) (h : o ∈ roiObs mr fr) :
    (fundingAt fr o.group o.startYear).isSome ∧
    ∃ s ∈ fr, nih_to_bisias_group s.institute = some o.group ∧ s.funding.isSome := by
  obtain ⟨lag, _, window, _, year, _, hc⟩ := mem_roiObs h
  obtain ⟨hy, _, _, prev, fut, f, _, _, hfd, _⟩ := mem_cellObs hc
  subst hy
  have hiss : (fundingAt fr o.group o.startYear).isSome := by rw [hfd]; rfl
  exact ⟨hiss, fundingAt_isSome hiss⟩

/-- Witness for the amended C4 at the scenario observation. -/
theorem c4_witness :
    (⟨"ONC", 2000, 10, 1, 1/4000⟩ : Obs) ∈ roiObs mortScen fundScen ∧
    (fundingAt fundScen "ONC" 2000).isSome ∧
    ∃ s ∈ fundScen, nih_to_bisias_group s.institute = some "ONC" ∧ s.funding.isSome :=
  ⟨scenObs_mem, c4_funding_presence_amended mortScen fundScen _ scenObs_mem⟩

set_option maxRecDepth 4000 in
/-- C5 counterexample: on `mortCex` (burden years 2005, 2007, 2008) the sweep
emits (ONC, 1999, lag 9, window 5), whose `startYear + lag + window = 2013`
exceeds every year present in the burden series — the loop bound is the
hard-coded constant 2021, not the data coverage. -/
theorem c5_counterexample : ¬ claimC5 mortCex fundCex := by
  intro h
  obtain ⟨y, hy, hle⟩ := h _ cexObs5_mem
  have hall : ∀ z ∈ burdenYears mortCex, ¬ ((1999 : Int) + (9 : Nat) + (5 : Nat) ≤ z) := by
    with_unfolding_all decide
  exact hall y hy hle

/-- C5 amended: the bound respected by every emitted observation is the
hard-coded sweep range — `startYear + lag + window ≤ 2020`, start years from
1999, lags 9–16 and windows 1–5 — independent of the burden data's
coverage. -/
theorem c5_sweep_bound_amended (mr : List MortRow) (fr : List FundRow)
    (o : Obs) (h : o ∈ roiObs mr fr) :
    1999 ≤ o.startYear ∧ o.startYear + o.lag + o.window ≤ 2020 ∧
    9 ≤ o.lag ∧ o.lag ≤ 16 ∧ 1 ≤ o.window ∧ o.window ≤ 5 := by
  obtain ⟨lag, hl, window, hw, year, hy, hc⟩ := mem_roiObs h
  obtain ⟨hys, hls, hws, _⟩ := mem_cellObs hc
  subst hys; subst hls; subst hws
  obtain ⟨h1, h2⟩ := sweepYears_bound hy
  obtain ⟨h3, h4⟩ := sweepLags_bound hl
  obtain ⟨h5, h6⟩ := sweepWindows_bound hw
  exact ⟨h1, h2, h3, h4, h5, h6⟩

/-- Witness for the amended C5 at the scenario observation. -/
theorem c5_witness :
    (⟨"ONC", 2000, 10, 1, 1/4000⟩ : Obs) ∈ roiObs mortScen fundScen ∧
    ((1999 : Int) ≤ 2000 ∧ (2000 : Int) + (10 : Nat) + (1 : Nat) ≤ 2020 ∧
      (9 : Nat) ≤ 10 ∧ (10 : Nat) ≤ 16 ∧ (1 : Nat) ≤ 1 ∧ (1 : Nat) ≤ 5) :=
  ⟨scenObs_mem, c5_sweep_bound_amended mortScen fundScen _ scenObs_mem⟩

end NIH
